import Mathlib

/-!
Shallow embedding of the NHL fantasy draft tool (`src/main.py`): the
cleaning steps of `load_data`, the scoring transform
`calculate_fantasy_points`, the merge-and-rank step
`create_combined_rankings`, the "Top Goalie" summary access from `main`,
and the per-team aggregation from the Analysis tab.

Modelling conventions:
* Python floats are modelled as exact rationals (`ℚ`); `Series.round(1)`
  is modelled as decimal rounding, half to even, applied to the exact value.
* A pandas DataFrame is modelled as a list of rows together with the
  list of stat columns present in the frame; each row carries the
  identity columns and a total map of stat values (only the columns
  listed in `Table.cols` are treated as present by the code paths below,
  mirroring the `'G' in df.columns` checks).
* `sort_values('Fantasy Points', ascending=False)` is called with the
  default `kind='quicksort'` (numpy introsort), whose contract is only
  that the output is a permutation of the input sorted descending by the
  key: the relative order of tied rows is NOT specified (only the
  `mergesort`/`stable` kinds are stable).  `sortFPDesc` below fixes one
  deterministic permutation satisfying that contract (a stable insertion
  sort, which is also what numpy executes on arrays small enough for its
  insertion-sort cutoff); properties proved through `sortFPDesc` are
  trusted only where they hold for every descending-sorted permutation,
  and the unspecified tie order is addressed separately at the theorem
  about tie handling.
-/

/-- The stat columns handled by the tool: the eleven scorable stats of the
`scoring` dictionary plus the extra display columns `PTS`, `SV%`, `GAA`
selected by `create_combined_rankings`. -/
inductive Stat where
  | G
  | A
  | PTS
  | PIM
  | PPG
  | PPP
  | SOG
  | HIT
  | BLK
  | W
  | SV
  | SO
  | SVpct
  | GAA
deriving DecidableEq

/-- One row of a stats DataFrame: identity columns, the numeric stat
columns (a total map; the code only reads columns listed in the table's
`cols`), and the `Fantasy Points` column (overwritten by
`calculate_fantasy_points`, starting from `df['Fantasy Points'] = 0`). -/
structure Row where
  player : String
  team : String
  pos : String
  stat : Stat → ℚ
  fantasyPoints : ℚ

/-- A stats DataFrame: the stat columns it actually has, and its rows. -/
structure Table where
  cols : List Stat
  rows : List Row

/-- Round an exact rational to the nearest integer, ties to even (the
rounding numpy applies to exact values). -/
def roundHalfEven (q : ℚ) : ℤ :=
  if q - ⌊q⌋ < 1/2 then ⌊q⌋
  else if 1/2 < q - ⌊q⌋ then ⌊q⌋ + 1
  else if ⌊q⌋ % 2 = 0 then ⌊q⌋ else ⌊q⌋ + 1

/-- `Series.round(1)`: round to one decimal place, half to even. -/
def round1 (q : ℚ) : ℚ := (roundHalfEven (10 * q) : ℚ) / 10

/-- The skater stats accumulated by the `player_type == 'skater'` branch of
`calculate_fantasy_points`, in program order. -/
def skaterStats : List Stat := [.G, .A, .PIM, .PPG, .PPP, .SOG, .HIT, .BLK]

/-- The goalie stats accumulated by the `else` branch of
`calculate_fantasy_points`, in program order. -/
def goalieStats : List Stat := [.W, .SV, .SO]

/-- One `df['Fantasy Points'] += df[s] * scoring[s]` step, guarded by
`if s in df.columns and s in scoring`.  The scoring dictionary is a partial
map, so a stat absent from `scoring` contributes nothing. -/
def addStat (cols : List Stat) (scoring : Stat → Option ℚ) (r : Row) (acc : ℚ) (s : Stat) : ℚ :=
  if s ∈ cols then
    match scoring s with
    | some w => acc + r.stat s * w
    | none => acc
  else acc

/-- The accumulated `Fantasy Points` value of one row before the final
`round(1)`: the chain of guarded `+=` statements starting from 0. -/
def rawPoints (cols : List Stat) (scoring : Stat → Option ℚ) (stats : List Stat) (r : Row) : ℚ :=
  stats.foldl (addStat cols scoring r) 0

/-- `calculate_fantasy_points(df, scoring, player_type)` (src/main.py
lines 87-120): copies the frame, accumulates the weighted stats of the
branch selected by `player_type == 'skater'`, and rounds the result to one
decimal place.  The input frame is untouched (`df = df.copy()`); here the
function simply returns a new `Table`. -/
def calculate_fantasy_points (df : Table) (scoring : Stat → Option ℚ)
    (player_type : String) : Table :=
  let stats := if player_type = "skater" then skaterStats else goalieStats
  { cols := df.cols
    rows := df.rows.map fun r =>
      { r with fantasyPoints := round1 (rawPoints df.cols scoring stats r) } }

/-- The goalie columns that `create_combined_rankings` adds to
`skaters_display` with value 0. -/
def goalieOnlyCols : List Stat := [.W, .SV, .SO, .SVpct, .GAA]

/-- The skater columns that `create_combined_rankings` adds to
`goalies_display` with value 0. -/
def skaterOnlyCols : List Stat := [.G, .A, .PTS, .PIM, .PPG, .PPP, .SOG, .HIT, .BLK]

/-- One row of the combined rankings frame built by
`create_combined_rankings`: the common field set shared by the normalized
skater and goalie displays. -/
structure CPlayer where
  player : String
  team : String
  pos : String
  fantasyPoints : ℚ
  playerType : String
  stat : Stat → ℚ

/-- `skaters_display`: the selected skater columns, `Player Type = 'Skater'`,
and the missing goalie columns filled with 0. -/
def toSkaterDisplay (r : Row) : CPlayer :=
  { player := r.player
    team := r.team
    pos := r.pos
    fantasyPoints := r.fantasyPoints
    playerType := "Skater"
    stat := fun s => if s ∈ goalieOnlyCols then 0 else r.stat s }

/-- `goalies_display`: the selected goalie columns, `Player Type = 'Goalie'`,
the synthetic `Pos = 'G'`, and the missing skater columns filled with 0. -/
def toGoalieDisplay (r : Row) : CPlayer :=
  { player := r.player
    team := r.team
    pos := "G"
    fantasyPoints := r.fantasyPoints
    playerType := "Goalie"
    stat := fun s => if s ∈ skaterOnlyCols then 0 else r.stat s }

/-- `pd.concat([skaters_display, goalies_display], ignore_index=True)`:
the pre-sort concatenation, skaters then goalies, each in original order. -/
def combineDisplays (skaters goalies : Table) : List CPlayer :=
  skaters.rows.map toSkaterDisplay ++ goalies.rows.map toGoalieDisplay

/-- The comparison used by `sort_values('Fantasy Points', ascending=False)`:
earlier-placed rows have greater-or-equal fantasy points. -/
def geFP (a b : CPlayer) : Prop := b.fantasyPoints ≤ a.fantasyPoints

instance : DecidableRel geFP := fun a b =>
  inferInstanceAs (Decidable (b.fantasyPoints ≤ a.fantasyPoints))

instance : IsTotal CPlayer geFP :=
  ⟨fun a b => le_total b.fantasyPoints a.fantasyPoints⟩

instance : IsTrans CPlayer geFP :=
  ⟨fun _ _ _ h1 h2 => le_trans h2 h1⟩

/-- `combined.sort_values('Fantasy Points', ascending=False)` with the
default `kind='quicksort'`: the library guarantees a permutation of the
input sorted descending by `Fantasy Points` and nothing about the order of
tied rows.  This model fixes one such permutation deterministically (a
stable insertion sort); see the module docstring — no tie-order property
of this choice is attributed to the program. -/
def sortFPDesc (l : List CPlayer) : List CPlayer := List.insertionSort geFP l

/-- A combined-rankings row together with its assigned `Rank` column. -/
structure RankedPlayer where
  entry : CPlayer
  rank : ℕ

/-- `create_combined_rankings(skaters, goalies)` (src/main.py lines
122-148): normalize both frames to a common field set, concatenate skaters
then goalies, sort descending by `Fantasy Points`, and assign
`Rank = range(1, len(combined) + 1)` by final position. -/
def create_combined_rankings (skaters goalies : Table) : List RankedPlayer :=
  ((sortFPDesc (combineDisplays skaters goalies)).enumFrom 1).map fun ie =>
    { entry := ie.2, rank := ie.1 }

/-- `combined_rankings[combined_rankings['Pos'] == 'G'].iloc[0]` from `main`
(src/main.py lines 227-228): select the goalie rows and take the first.
`.iloc[0]` raises `IndexError` on an empty selection, modelled as `none`. -/
def topGoalie (ranked : List RankedPlayer) : Option RankedPlayer :=
  (ranked.filter fun p => p.entry.pos == "G").head?

/-- `combined_rankings.groupby('Team')['Fantasy Points'].sum()` from the
Analysis tab of `main` (src/main.py line 467): one group per distinct team
value observed in the collection, with the sum of that team's fantasy
points.  Group keys are listed here in `List.dedup` order; pandas sorts the
keys alphabetically, but the properties checked below do not depend on the
order of the groups. -/
def teamTotals (ranked : List RankedPlayer) : List (String × ℚ) :=
  ((ranked.map fun p => p.entry.team).dedup).map fun t =>
    (t, ((ranked.filter fun p => p.entry.team == t).map fun p => p.entry.fantasyPoints).sum)

/-- A cell of a raw CSV-loaded DataFrame: a textual value, a numeric value,
or a missing value (`NaN`). -/
inductive Cell where
  | str : String → Cell
  | num : ℚ → Cell
  | nan : Cell
deriving DecidableEq

/-- A raw tabular input: its column names and its rows (total maps from
column name to cell; only columns in `cols` are present). -/
structure RawTable where
  cols : List String
  cells : List (String → Cell)

/-- `pd.to_numeric(column, errors='coerce')` on one cell, for an abstract
numeric parser `parse` (pandas' literal parser is kept abstract; every
property below holds for an arbitrary parser). A value that cannot be
parsed as numeric becomes missing rather than raising. -/
def toNumericCell (parse : String → Option ℚ) : Cell → Cell
  | .str s =>
    match parse s with
    | some q => .num q
    | none => .nan
  | .num q => .num q
  | .nan => .nan

/-- `fillna(0)` on one cell. -/
def fillZero : Cell → Cell
  | .nan => .num 0
  | c => c

/-- The declared numeric skater columns of `load_data`. -/
def numeric_cols_skaters : List String :=
  ["VAR", "GP", "G", "A", "PTS", "(+/-)", "PIM", "EV",
   "PPG", "PPA", "PPP", "SOG", "ATOI", "FOW", "BLK", "HIT"]

/-- The declared numeric goalie columns of `load_data`. -/
def numeric_cols_goalies : List String :=
  ["VAR", "GS", "W", "L", "T/O", "SO", "SV", "SV%", "GA", "GAA", "SA"]

/-- One row after the cleaning steps of `load_data`: `to_numeric` with
`errors='coerce'` on each declared numeric column present in the table,
then `fillna(0)` on every present column.  Columns not present in the
table are untouched. -/
def cleanRow (parse : String → Option ℚ) (numericCols cols : List String)
    (row : String → Cell) : String → Cell :=
  fun c =>
    if c ∈ cols then
      fillZero (if c ∈ numericCols then toNumericCell parse (row c) else row c)
    else row c

/-- The cleaning steps of `load_data` applied to one table. -/
def cleanTable (parse : String → Option ℚ) (numericCols : List String)
    (t : RawTable) : RawTable :=
  { cols := t.cols
    cells := t.cells.map (cleanRow parse numericCols t.cols) }

/-- The cleaning steps of `load_data` (src/main.py lines 26-44): numeric
coercion on the declared columns of each table, then `fillna(0)`, applied
to the skaters and goalies tables. -/
def load_data_clean (parse : String → Option ℚ) (skaters goalies : RawTable) :
    RawTable × RawTable :=
  (cleanTable parse numeric_cols_skaters skaters,
   cleanTable parse numeric_cols_goalies goalies)

/-- The number a declared numeric cell holds after cleaning: the parsed
value, with unparseable or missing entries coerced to 0. -/
def coerceVal (parse : String → Option ℚ) : Cell → ℚ
  | .str s => (parse s).getD 0
  | .num q => q
  | .nan => 0

/-! ### Concrete sample data, used by witnesses and concrete evaluations -/

/-- The skater of the spec's concrete scenario:
`{G:2, A:1, PIM:0, PPG:0, PPP:0, SOG:3, HIT:1, BLK:0}`. -/
def row9 : Row :=
  { player := "S1"
    team := "T1"
    pos := "C"
    stat := fun s =>
      match s with
      | .G => 2
      | .A => 1
      | .SOG => 3
      | .HIT => 1
      | _ => 0
    fantasyPoints := 0 }

/-- The weights of the spec's concrete scenario:
`{G:6, A:4, SOG:0.25, HIT:2}`, all other weights absent. -/
def scoring9 : Stat → Option ℚ := fun s =>
  match s with
  | .G => some 6
  | .A => some 4
  | .SOG => some (1/4)
  | .HIT => some 2
  | _ => none

/-- The stat columns of the skaters frame used in the merge. -/
def skaterCols : List Stat := [.G, .A, .PTS, .PIM, .PPG, .PPP, .SOG, .HIT, .BLK]

/-- A one-skater table holding the concrete scenario's record. -/
def t9 : Table := { cols := skaterCols, rows := [row9] }

/-- An empty goalies table. -/
def tG0 : Table := { cols := goalieOnlyCols, rows := [] }

/-- A combined-rankings row for sample aggregations. -/
def cpl (name tm : String) (fp : ℚ) : CPlayer :=
  { player := name
    team := tm
    pos := "C"
    fantasyPoints := fp
    playerType := "Skater"
    stat := fun _ => 0 }

/-- A sample ranked collection with two Toronto players and one Montreal
player. -/
def l4 : List RankedPlayer :=
  [{ entry := cpl "P1" "TOR" 7, rank := 1 },
   { entry := cpl "P2" "MTL" 4, rank := 2 },
   { entry := cpl "P3" "TOR" 3, rank := 3 }]

/-- A sample abstract numeric parser for the normalizer witnesses. -/
def parse0 : String → Option ℚ := fun s => if s = "7" then some 7 else none

/-- Sample raw columns: an identity column and three declared numeric ones. -/
def cols0 : List String := ["Player", "G", "VAR", "EV"]

/-- A sample raw row: a parseable numeric cell, an unparseable one, a
missing one, and a textual identity cell. -/
def row0 : String → Cell := fun c =>
  if c = "G" then .str "7"
  else if c = "VAR" then .str "x"
  else if c = "EV" then .nan
  else .str "Bob"

/-- A sample raw table holding `row0`. -/
def raw0 : RawTable := { cols := cols0, cells := [row0] }

/-! ### Helper lemmas -/

/-- Unfolding the guarded `+=` chain into an explicit weighted sum, for an
arbitrary starting accumulator. -/
theorem foldl_addStat (cols : List Stat) (scoring : Stat → Option ℚ) (r : Row) :
    ∀ (stats : List Stat) (acc : ℚ),
      stats.foldl (addStat cols scoring r) acc
        = acc + (stats.map fun s =>
            (if s ∈ cols then r.stat s else 0) * (scoring s).getD 0).sum := by
  intro stats
  induction stats with
  | nil => intro acc; simp
  | cons s ss ih =>
    intro acc
    rw [List.foldl_cons, List.map_cons, List.sum_cons, ih]
    unfold addStat
    by_cases hs : s ∈ cols
    · rw [if_pos hs, if_pos hs]
      cases hw : scoring s with
      | none => simp [hw]
      | some w => simp [hw]; ring
    · rw [if_neg hs, if_neg hs]
      simp

/-- `rawPoints` is the weighted sum over the given stat list: a stat absent
from the frame's columns or from the scoring map contributes zero. -/
theorem rawPoints_eq_sum (cols : List Stat) (scoring : Stat → Option ℚ)
    (stats : List Stat) (r : Row) :
    rawPoints cols scoring stats r
      = (stats.map fun s =>
          (if s ∈ cols then r.stat s else 0) * (scoring s).getD 0).sum := by
  rw [rawPoints, foldl_addStat]
  simp

/-- Scaling every weight scales one accumulation step. -/
theorem addStat_smul (cols : List Stat) (scoring : Stat → Option ℚ)
    (k : ℚ) (r : Row) (acc : ℚ) (s : Stat) :
    addStat cols (fun t => (scoring t).map fun w => k * w) r (k * acc) s
      = k * addStat cols scoring r acc s := by
  unfold addStat
  by_cases hs : s ∈ cols
  · rw [if_pos hs, if_pos hs]
    cases hw : scoring s with
    | none => simp [hw]
    | some w => simp [hw]; ring
  · rw [if_neg hs, if_neg hs]

/-- Scaling every weight scales the accumulated raw points. -/
theorem foldl_addStat_smul (cols : List Stat) (scoring : Stat → Option ℚ)
    (k : ℚ) (r : Row) :
    ∀ (stats : List Stat) (acc : ℚ),
      stats.foldl (addStat cols (fun s => (scoring s).map fun w => k * w) r) (k * acc)
        = k * stats.foldl (addStat cols scoring r) acc := by
  intro stats
  induction stats with
  | nil => intro acc; simp
  | cons s ss ih =>
    intro acc
    rw [List.foldl_cons, List.foldl_cons, addStat_smul, ih]

/-- `rawPoints` is linear in the weights. -/
theorem rawPoints_smul (cols : List Stat) (scoring : Stat → Option ℚ)
    (k : ℚ) (stats : List Stat) (r : Row) :
    rawPoints cols (fun s => (scoring s).map fun w => k * w) stats r
      = k * rawPoints cols scoring stats r := by
  have h := foldl_addStat_smul cols scoring k r stats 0
  rw [mul_zero] at h
  exact h

/-- Dropping the rank column of the combined rankings recovers the sorted
concatenation. -/
theorem rankings_map_entry (skaters goalies : Table) :
    (create_combined_rankings skaters goalies).map (fun p => p.entry)
      = sortFPDesc (combineDisplays skaters goalies) := by
  rw [create_combined_rankings, List.map_map]
  exact List.enumFrom_map_snd 1 _

/-- The rank column of the combined rankings is `1, 2, ..., N`. -/
theorem rankings_map_rank (skaters goalies : Table) :
    (create_combined_rankings skaters goalies).map (fun p => p.rank)
      = List.range' 1 (skaters.rows.length + goalies.rows.length) := by
  rw [create_combined_rankings, List.map_map]
  have h := List.enumFrom_map_fst 1 (sortFPDesc (combineDisplays skaters goalies))
  have hc : ((fun p => RankedPlayer.rank p) ∘ fun ie => RankedPlayer.mk ie.2 ie.1)
      = Prod.fst (α := ℕ) (β := CPlayer) := rfl
  rw [hc, h, sortFPDesc, List.length_insertionSort, combineDisplays,
    List.length_append, List.length_map, List.length_map]

/-! ### Claim theorems -/

/-- C1: for every frame of a given category and every weights mapping,
`calculate_fantasy_points` sets each record's fantasy points to the sum,
over the category-applicable stats (skaters: G, A, PIM, PPG, PPP, SOG,
HIT, BLK; goalies: W, SV, SO), of stat value times weight — a stat absent
from the frame's columns or from the weights contributes zero, stats not
applicable to the category never enter the sum even when present in the
weights — rounded to one decimal place.  The output keeps the input order
and every other field of each record. -/
theorem calculate_fantasy_points_weighted_sum (df : Table)
    (scoring : Stat → Option ℚ) (player_type : String) :
    (calculate_fantasy_points df scoring player_type).rows
      = df.rows.map fun r =>
          { r with fantasyPoints :=
              round1 (((if player_type = "skater" then skaterStats else goalieStats).map
                fun s => (if s ∈ df.cols then r.stat s else 0) * (scoring s).getD 0).sum) } := by
  unfold calculate_fantasy_points
  simp only [rawPoints_eq_sum]

/-- A skater tied at 5 fantasy points with the goalie below. -/
def rowTieS : Row :=
  { player := "A"
    team := "T1"
    pos := "C"
    stat := fun _ => 0
    fantasyPoints := 5 }

/-- A goalie tied at 5 fantasy points with the skater above. -/
def rowTieG : Row :=
  { player := "B"
    team := "T2"
    pos := "G"
    stat := fun _ => 0
    fantasyPoints := 5 }

/-- A one-skater table holding the tied skater. -/
def tTieS : Table := { cols := skaterCols, rows := [rowTieS] }

/-- A one-goalie table holding the tied goalie. -/
def tTieG : Table := { cols := goalieOnlyCols, rows := [rowTieG] }

/-- C2: the claim asserts that `create_combined_rankings` uses a stable
sort — tied players keep their relative order from the skaters-then-goalies
concatenation.  The source (src/main.py line 145) calls
`sort_values('Fantasy Points', ascending=False)` with the default
`kind='quicksort'` (numpy introsort), whose contract guarantees only a
permutation of the input sorted descending by fantasy points and says
nothing about tie order — introsort partitioning reorders equal keys once
the input outgrows its insertion-sort cutoff.  This theorem exhibits, at a
concrete input with one tied skater-goalie pair, an output that satisfies
everything the sort contract guarantees while presenting the tied pair in
reverse of its concatenation order: the claimed stability is not implied
by the sort the code requests. -/
theorem sort_contract_allows_tie_reorder :
    (toSkaterDisplay rowTieS).fantasyPoints = (toGoalieDisplay rowTieG).fantasyPoints
    ∧ combineDisplays tTieS tTieG = [toSkaterDisplay rowTieS, toGoalieDisplay rowTieG]
    ∧ List.Perm [toGoalieDisplay rowTieG, toSkaterDisplay rowTieS]
        (combineDisplays tTieS tTieG)
    ∧ List.Sorted geFP [toGoalieDisplay rowTieG, toSkaterDisplay rowTieS]
    ∧ [toGoalieDisplay rowTieG, toSkaterDisplay rowTieS] ≠ combineDisplays tTieS tTieG := by
  refine ⟨rfl, rfl, List.Perm.swap _ _ _, ?_, ?_⟩
  · refine List.Sorted.cons ?_ (List.sorted_singleton _)
    exact le_refl _
  · intro h
    have h2 := congrArg (List.map fun p => p.player) h
    simp only [combineDisplays, tTieS, tTieG, toSkaterDisplay, toGoalieDisplay,
      rowTieS, rowTieG, List.map_cons, List.map_nil, List.map_append,
      List.cons_append, List.nil_append, List.cons.injEq] at h2
    exact absurd h2.1 (by decide)

/-- C5: for every merged input of `N` players, `create_combined_rankings`
assigns as ranks exactly `1, 2, ..., N`, each exactly once, rank `i` going
to the player at the `i`-th position of the sorted order. -/
theorem create_combined_rankings_dense_ranks (skaters goalies : Table) :
    (create_combined_rankings skaters goalies).map (fun p => p.rank)
        = List.range' 1 (skaters.rows.length + goalies.rows.length)
    ∧ (create_combined_rankings skaters goalies).map (fun p => p.entry)
        = sortFPDesc (combineDisplays skaters goalies) :=
  ⟨rankings_map_rank skaters goalies, rankings_map_entry skaters goalies⟩

/-- C3: the "Top Goalie" summary of `main` (lines 227-228) takes
`.iloc[0]` of the `Pos == 'G'` selection without checking for emptiness.
At the failing input — a nonempty skaters table and an empty goalies
table — the selection is empty and the access has no value (`IndexError`
in the source), contradicting the claim that the consumer checks for
emptiness and reports an explicit "no data" result. -/
theorem topGoalie_unguarded_empty :
    ((create_combined_rankings t9 tG0).filter fun p => p.entry.pos == "G") = []
    ∧ topGoalie (create_combined_rankings t9 tG0) = none :=
  ⟨rfl, rfl⟩

/-- C4: the team aggregation returns one group per distinct team value
observed in the collection — no team omitted, none duplicated, even a team
with a single player — each with the sum of its players' fantasy points. -/
theorem teamTotals_groups (ranked : List RankedPlayer) :
    ((teamTotals ranked).map Prod.fst).Nodup
    ∧ (∀ t : String,
        t ∈ (teamTotals ranked).map Prod.fst ↔ t ∈ ranked.map fun p => p.entry.team)
    ∧ ∀ pr, pr ∈ teamTotals ranked →
        pr.2 = ((ranked.filter fun p => p.entry.team == pr.1).map
          fun p => p.entry.fantasyPoints).sum := by
  refine ⟨?_, ?_, ?_⟩
  · rw [teamTotals, List.map_map]
    have hc : (Prod.fst ∘ fun t : String =>
        (t, ((ranked.filter fun p => p.entry.team == t).map
          fun p => p.entry.fantasyPoints).sum)) = id := rfl
    rw [hc, List.map_id]
    exact List.nodup_dedup _
  · intro t
    rw [teamTotals, List.map_map]
    have hc : (Prod.fst ∘ fun t : String =>
        (t, ((ranked.filter fun p => p.entry.team == t).map
          fun p => p.entry.fantasyPoints).sum)) = id := rfl
    rw [hc, List.map_id]
    exact List.mem_dedup
  · intro pr hpr
    rw [teamTotals] at hpr
    obtain ⟨t, _, ht⟩ := List.mem_map.mp hpr
    rw [← ht]

/-- Witness for C4 at a concrete collection: Toronto has two players with
7 and 3 fantasy points; the team appears among the groups with total 10. -/
theorem teamTotals_groups_witness :
    (("TOR", (10 : ℚ)) ∈ teamTotals l4)
    ∧ ("TOR", (10 : ℚ)).2 = ((l4.filter fun p => p.entry.team == "TOR").map
        fun p => p.entry.fantasyPoints).sum := by
  have hmem : ("TOR", (10 : ℚ)) ∈ teamTotals l4 := by
    refine List.mem_map.mpr ⟨"TOR", List.mem_dedup.mpr (by simp [l4, cpl]), ?_⟩
    have h1 : (("MTL" == "TOR") : Bool) = false := by decide
    norm_num [l4, cpl, List.filter_cons, h1]
  exact ⟨hmem, (teamTotals_groups l4).2.2 ("TOR", (10 : ℚ)) hmem⟩

/-- C6: the cleaning steps of `load_data` keep the row count and the column
set of both tables; on each row, every declared numeric column present in
the table ends as a number (the parsed value, with unparseable or missing
entries coerced to 0, never an error), every missing value of every present
column is replaced with 0, and every present non-numeric (identity) column
that held an actual value is returned unchanged. -/
theorem load_data_clean_spec (parse : String → Option ℚ) (skaters goalies : RawTable) :
    ((load_data_clean parse skaters goalies).1.cells.length = skaters.cells.length
      ∧ (load_data_clean parse skaters goalies).2.cells.length = goalies.cells.length)
    ∧ ((load_data_clean parse skaters goalies).1.cols = skaters.cols
      ∧ (load_data_clean parse skaters goalies).2.cols = goalies.cols)
    ∧ ((load_data_clean parse skaters goalies).1.cells
        = skaters.cells.map (cleanRow parse numeric_cols_skaters skaters.cols)
      ∧ (load_data_clean parse skaters goalies).2.cells
        = goalies.cells.map (cleanRow parse numeric_cols_goalies goalies.cols))
    ∧ (∀ (numericCols cols : List String) (row : String → Cell) (c : String),
        c ∈ cols →
          (c ∈ numericCols →
            cleanRow parse numericCols cols row c = .num (coerceVal parse (row c)))
          ∧ (row c = .nan → cleanRow parse numericCols cols row c = .num 0)
          ∧ (c ∉ numericCols → row c ≠ .nan →
            cleanRow parse numericCols cols row c = row c)) := by
  refine ⟨⟨by simp [load_data_clean, cleanTable], by simp [load_data_clean, cleanTable]⟩,
    ⟨rfl, rfl⟩, ⟨rfl, rfl⟩, ?_⟩
  intro numericCols cols row c hc
  refine ⟨?_, ?_, ?_⟩
  · intro hnum
    rw [cleanRow]
    rw [if_pos hc, if_pos hnum]
    cases hcell : row c with
    | str s =>
      rw [toNumericCell]
      cases hp : parse s with
      | some q => simp [fillZero, coerceVal, hp]
      | none => simp [fillZero, coerceVal, hp]
    | num q => simp [toNumericCell, fillZero, coerceVal]
    | nan => simp [toNumericCell, fillZero, coerceVal]
  · intro hnan
    rw [cleanRow, if_pos hc, hnan]
    by_cases hnum : c ∈ numericCols
    · rw [if_pos hnum]
      rfl
    · rw [if_neg hnum]
      rfl
  · intro hnum hnan
    rw [cleanRow, if_pos hc, if_neg hnum]
    cases hcell : row c with
    | str s => rfl
    | num q => rfl
    | nan => exact absurd hcell hnan

/-- Witness for C6 at a concrete row and parser: the parseable numeric cell
becomes its value, the missing cell becomes 0, and the textual identity
cell is unchanged. -/
theorem load_data_clean_spec_witness :
    cleanRow parse0 numeric_cols_skaters cols0 row0 "G" = Cell.num 7
    ∧ cleanRow parse0 numeric_cols_skaters cols0 row0 "EV" = Cell.num 0
    ∧ cleanRow parse0 numeric_cols_skaters cols0 row0 "Player" = Cell.str "Bob" := by
  refine ⟨?_, ?_, ?_⟩
  · exact (((load_data_clean_spec parse0 raw0 raw0).2.2.2 numeric_cols_skaters cols0 row0 "G"
      (by decide)).1 (by decide)).trans (by decide)
  · exact ((load_data_clean_spec parse0 raw0 raw0).2.2.2 numeric_cols_skaters cols0 row0 "EV"
      (by decide)).2.1 (by decide)
  · exact (((load_data_clean_spec parse0 raw0 raw0).2.2.2 numeric_cols_skaters cols0 row0 "Player"
      (by decide)).2.2 (by decide) (by decide)).trans (by decide)

/-- C7: `calculate_fantasy_points` is linear in the weights — scaling every
weight by `k` yields, for every player, the one-decimal rounding of `k`
times the pre-rounding fantasy points computed with the original weights. -/
theorem calculate_fantasy_points_linear (df : Table) (scoring : Stat → Option ℚ)
    (k : ℚ) (player_type : String) :
    (calculate_fantasy_points df (fun s => (scoring s).map fun w => k * w) player_type).rows
      = df.rows.map fun r =>
          { r with fantasyPoints :=
              round1 (k * rawPoints df.cols scoring
                (if player_type = "skater" then skaterStats else goalieStats) r) } := by
  unfold calculate_fantasy_points
  simp only [rawPoints_smul]

/-- Erase the derived column, keeping every other field of a row. -/
def eraseFP (r : Row) : Row := { r with fantasyPoints := 0 }

/-- C8: `calculate_fantasy_points` returns a new sequence in the same order
as the input with only the `Fantasy Points` column changed: erasing that
column from the output recovers, row for row, the erased input — so the
identity fields and every stat value of every record are untouched, and the
column set and row count are preserved.  The source's `df = df.copy()`
makes the transform pure; in this embedding the input table is a value and
is returned untouched by construction. -/
theorem calculate_fantasy_points_frame (df : Table) (scoring : Stat → Option ℚ)
    (player_type : String) :
    (calculate_fantasy_points df scoring player_type).cols = df.cols
    ∧ (calculate_fantasy_points df scoring player_type).rows.map eraseFP
        = df.rows.map eraseFP
    ∧ (calculate_fantasy_points df scoring player_type).rows.length = df.rows.length := by
  refine ⟨rfl, ?_, by simp [calculate_fantasy_points]⟩
  unfold calculate_fantasy_points
  simp only [List.map_map]
  rfl

/-- C9: for the spec's concrete skater record and weights
`{G:6, A:4, SOG:0.25, HIT:2}`, the pre-rounding value is exactly
18.75 = 75/4, and the implementation's rounding rule — round half to even,
applied once to the total — yields 18.8 = 94/5. -/
theorem concrete_scenario_rounding :
    rawPoints t9.cols scoring9 skaterStats row9 = 75/4
    ∧ round1 (75/4) = 94/5
    ∧ (calculate_fantasy_points t9 scoring9 "skater").rows.map (fun r => r.fantasyPoints)
        = [94/5] := by
  have hraw : rawPoints skaterCols scoring9 skaterStats row9 = 75/4 := by
    rw [rawPoints_eq_sum]
    norm_num [skaterCols, scoring9, row9, skaterStats]
  have hround : round1 (75/4) = 94/5 := by
    norm_num [round1, roundHalfEven]
  refine ⟨hraw, hround, ?_⟩
  show [round1 (rawPoints skaterCols scoring9
    (if ("skater" : String) = "skater" then skaterStats else goalieStats) row9)] = [94/5]
  rw [if_pos rfl, hraw, hround]

/-- C10: any `player_type` other than the exact string `"skater"` — not only
`"goalie"` — takes the `else` branch, so the records are scored with the
goalie rule: only W, SV and SO contribute and every skater weight is
ignored. -/
theorem calculate_fantasy_points_nonskater (df : Table) (scoring : Stat → Option ℚ)
    (player_type : String) (h : player_type ≠ "skater") :
    calculate_fantasy_points df scoring player_type
        = calculate_fantasy_points df scoring "goalie"
    ∧ (calculate_fantasy_points df scoring player_type).rows
        = df.rows.map fun r =>
            { r with fantasyPoints := round1 (rawPoints df.cols scoring goalieStats r) } := by
  unfold calculate_fantasy_points
  rw [if_neg h, if_neg (by decide : ¬ ("goalie" = "skater"))]
  exact ⟨rfl, rfl⟩

/-- Witness for C10: the misspelled category `"Goalie"` is scored with the
goalie rule on the concrete sample table. -/
theorem calculate_fantasy_points_nonskater_witness :
    ("Goalie" : String) ≠ "skater"
    ∧ (calculate_fantasy_points t9 scoring9 "Goalie"
          = calculate_fantasy_points t9 scoring9 "goalie"
      ∧ (calculate_fantasy_points t9 scoring9 "Goalie").rows
          = t9.rows.map fun r =>
              { r with fantasyPoints := round1 (rawPoints t9.cols scoring9 goalieStats r) }) :=
  ⟨by decide, calculate_fantasy_points_nonskater t9 scoring9 "Goalie" (by decide)⟩
